import Mathlib

/-!
# Verification of the `yit` terminal media controller core

Shallow embedding of the core of the `yit` player-controller:

* `src/yit/storage.py` — the persistent Track Store (`save_to_history`,
  favorites add/remove logic from `cmd_fav`);
* `src/yit/ipc.py` — the Control-Channel Client (`send_ipc_command`,
  `get_ipc_property`), with the possible wire-level outcomes reified as an
  inductive type;
* `src/yit/utils.py` — `extract_video_id`;
* `src/yit/commands.py` — `play_tracks` (attach-or-spawn session logic) and
  the title-resolution logic of `cmd_queue`.

Side effects (IPC commands sent, processes spawned, store files rewritten) are
made explicit: each embedded operation returns the new store state together
with the trace of channel commands and spawn invocations it performs.
-/

namespace Yit

/-- A track as stored in Results / History / Favorites:
`{ "title": ..., "url": ... }`. -/
structure Track where
  title : String
  url : String
deriving Repr, DecidableEq

/-! ## Track Store (`src/yit/storage.py`) -/

/-- Embedding of `storage.save_to_history`: the body of the function after the
history list has been loaded.  It scans for an existing entry with the same
`url`; only when none exists is the track appended (first-write-wins). -/
def save_to_history (track : Track) (history : List Track) : List Track :=
  if history.any (fun item => item.url = track.url) then history
  else history ++ [track]

/-- Embedding of the `fav add` branch of `commands.cmd_fav` (lines 408-414):
if any favorite already has the same `url`, the list is unchanged (duplicate
add is a no-op); otherwise the track is appended. -/
def add_favorite (track : Track) (favs : List Track) : List Track :=
  if favs.any (fun f => f.url = track.url) then favs
  else favs ++ [track]

/-- Embedding of the `fav remove` branch of `commands.cmd_fav` (lines
416-429): the user-supplied number `i` is converted to the 0-based
`idx = i - 1`; when `0 <= idx < len(favs)` the element is removed with
`favs.pop(idx)` and the list saved, otherwise nothing is saved ("Invalid
index").  `none` is the failure outcome (favorites file untouched). -/
def remove_favorite (i : Int) (favs : List Track) : Option (List Track) :=
  let idx := i - 1
  if 0 ≤ idx ∧ idx < (favs.length : Int) then
    some (favs.eraseIdx idx.toNat)
  else
    none

/-! ## Control-Channel Client (`src/yit/ipc.py`) -/

/-- A JSON scalar appearing as an argument of an IPC command. -/
inductive JVal
  | s (v : String)
  | b (v : Bool)
deriving Repr, DecidableEq

/-- An IPC request: the `"command"` array `[verb, ...args]` of the JSON
object written to the channel. -/
def IpcCmd := List JVal
deriving Repr, DecidableEq

/-- A parsed response line: a JSON object with an optional `"error"` status
string and optional `"data"` payload (`{"error": ..., "data": ...}`). -/
structure MpvResponse where
  error : Option String
  data : Option JVal
deriving Repr, DecidableEq

/-- What happens on the wire during one `connect → write → readline` cycle.
This reifies the exception cases of `ipc.send_ipc_command` /
`ipc.get_ipc_property`:

* `connectFail` — the endpoint cannot be opened or the connection is refused
  (`FileNotFoundError`, `ConnectionRefusedError`, `OSError` on connect);
* `ioFail` — an `OSError` while writing or reading after a successful
  connect (caught by the same `except` clause);
* `parseFail` — a non-empty line was read but is not valid JSON
  (`json.loads` raises, caught by the generic `except Exception` clause);
* `emptyLine` — `readline` returned the empty string (EOF);
* `parsed r` — a line was read and parsed into response `r`. -/
inductive WireResult
  | connectFail
  | ioFail
  | parseFail
  | emptyLine
  | parsed (r : MpvResponse)
deriving Repr, DecidableEq

/-- Embedding of `ipc.send_ipc_command` (lines 44-60).  The request `command`
is serialized to the wire but never influences the returned value, which
depends only on the wire outcome:

* connection-level `OSError`s (`connectFail`, `ioFail`) → `None`;
* any other failure, e.g. a parse error, is logged and → `None`;
* an empty response line → `{"error": "no_response"}`;
* a parsed line → that response. -/
def send_ipc_command (_command : IpcCmd) (w : WireResult) : Option MpvResponse :=
  match w with
  | .connectFail => none
  | .ioFail => none
  | .parseFail => none
  | .emptyLine => some { error := some "no_response", data := none }
  | .parsed r => some r

/-- Embedding of `ipc.get_ipc_property` (lines 62-77).  Unlike
`send_ipc_command` there is no empty-line special case: `json.loads("")`
raises and the generic `except Exception` clause returns `None`. -/
def get_ipc_property (_prop : String) (w : WireResult) : Option MpvResponse :=
  match w with
  | .connectFail => none
  | .ioFail => none
  | .parseFail => none
  | .emptyLine => none
  | .parsed r => some r

/-! ## Session logic (`commands.play_tracks`) -/

/-- The three persisted Track Store collections. -/
structure Store where
  results : List Track
  history : List Track
  favorites : List Track
deriving Repr, DecidableEq

/-- The spawn invocation built by the Absent branch of `play_tracks`
(lines 95-127): the full argument vector handed to `subprocess.Popen`,
launched detached (`start_new_session` / `DETACHED_PROCESS`) with stdin,
stdout and stderr discarded (`DEVNULL`). -/
structure SpawnCmd where
  args : List String
  detached : Bool
  stdioDiscarded : Bool
deriving Repr, DecidableEq

/-- The argument vector of lines 96-108: the player binary, the fixed
performance flags, the channel endpoint, then every track URL in order. -/
def spawnArgs (mpvExe ipcPipe : String) (urls : List String) : List String :=
  [mpvExe,
   "--no-video",
   "--idle",
   "--cache=yes",
   "--prefetch-playlist=yes",
   "--demuxer-max-bytes=128M",
   "--demuxer-max-back-bytes=128M",
   "--input-ipc-server=" ++ ipcPipe] ++ urls

/-- The probe request issued by `play_tracks` (line 85). -/
def probeCmd : IpcCmd := [.s "get_property", .s "idle-active"]

/-- `{"command": ["loadfile", url, mode]}` (lines 89 and 93). -/
def loadfileCmd (url mode : String) : IpcCmd := [.s "loadfile", .s url, .s mode]

/-- `{"command": ["set_property", "pause", b]}` (line 90). -/
def setPauseCmd (b : Bool) : IpcCmd := [.s "set_property", .s "pause", .b b]

/-- The test of line 87: `if is_running and is_running.get("error") == "success"`.
A Python dict is truthy iff non-empty, and a response whose `"error"` field
equals `"success"` is necessarily non-empty, so the test reduces to the
response being present with `error == "success"`. -/
def isAttached (probe : Option MpvResponse) : Bool :=
  match probe with
  | none => false
  | some r => r.error = some "success"

/-- The observable outcome of one `play_tracks` call: new store state, the
probe requests issued, the further channel commands sent, and the processes
spawned, each in issue order. -/
structure PlayResult where
  store : Store
  probes : List IpcCmd
  sent : List IpcCmd
  spawns : List SpawnCmd
deriving Repr, DecidableEq

/-- Embedding of `commands.play_tracks` (lines 74-128).  `probe` is the
response of the `get_property("idle-active")` call of line 85.

* Empty batch: `if not tracks: return` — nothing happens at all.
* Otherwise the first track is saved to History (line 83), the channel is
  probed, and:
  * Attached: `loadfile(first.url, "replace")`, `set_property("pause",
    false)`, then `loadfile(t.url, "append")` for each remaining `t`;
  * Absent: a single detached spawn with every track URL as positional
    media argument. -/
def play_tracks (mpvExe ipcPipe : String) (tracks : List Track)
    (probe : Option MpvResponse) (st : Store) : PlayResult :=
  match tracks with
  | [] => { store := st, probes := [], sent := [], spawns := [] }
  | first :: rest =>
    let st' := { st with history := save_to_history first st.history }
    if isAttached probe then
      { store := st'
        probes := [probeCmd]
        sent := loadfileCmd first.url "replace" :: setPauseCmd false ::
          rest.map (fun t => loadfileCmd t.url "append")
        spawns := [] }
    else
      { store := st'
        probes := [probeCmd]
        sent := []
        spawns := [{ args := spawnArgs mpvExe ipcPipe ((first :: rest).map Track.url)
                     detached := true
                     stdioDiscarded := true }] }

/-- Playlist semantics of the collaborator player process, as fixed by the
spec's wire format (§6) and session contract (§4.2): `loadfile(url,
"replace")` replaces the queue with the single entry `url`;
`loadfile(url, "append")` appends `url`; every other verb used by this core
leaves the queue contents unchanged. -/
def applyCmd (queue : List String) (cmd : IpcCmd) : List String :=
  match cmd with
  | [.s "loadfile", .s url, .s "replace"] => [url]
  | [.s "loadfile", .s url, .s "append"] => queue ++ [url]
  | _ => queue

/-- The queue contents after a sequence of channel commands. -/
def runQueue (queue : List String) (cmds : List IpcCmd) : List String :=
  cmds.foldl applyCmd queue

/-! ## VideoID extraction (`src/yit/utils.py`) and the Title Resolver
(`commands.cmd_queue`, lines 231-273) -/

/-- Python's `str.split(sep)` over character lists, for a non-empty
separator: scan left to right, cutting at each non-overlapping occurrence of
`sep`.  `fuel` bounds the recursion depth; `s.length` is always enough fuel
because each step consumes at least one character. -/
def pySplitChars (sep : List Char) : Nat → List Char → List Char → List (List Char)
  | _, [], acc => [acc.reverse]
  | 0, s, acc => [acc.reverse ++ s]
  | fuel + 1, c :: rest, acc =>
    if sep.isPrefixOf (c :: rest) then
      acc.reverse :: pySplitChars sep fuel ((c :: rest).drop sep.length) []
    else
      pySplitChars sep fuel rest (c :: acc)

/-- Python's `s.split(sep)` for a non-empty separator. -/
def pySplit (s sep : String) : List String :=
  (pySplitChars sep.toList s.toList.length s.toList []).map String.mk

/-- Python's slice `s[:n]`. -/
def pyTake (s : String) (n : Nat) : String := String.mk (s.toList.take n)

/-- Embedding of `utils.extract_video_id` (lines 61-76).  Python's
`url.split(sep)[1]` is the segment between the first and second occurrence
of `sep`, which is element 1 of the split; `[:11]` is `pyTake · 11`; the
`try/except` around the indexing never fires because `sep in url` guarantees
at least two split segments.  When `"v="` occurs in the URL that branch
returns (possibly the empty string) and the `youtu.be/` branch is never
reached. -/
def extract_video_id (url : String) : Option String :=
  if url = "" then none
  else
    match pySplit url "v=" with
    | _ :: afterV :: _ => some (pyTake ((pySplit afterV "&").headD "") 11)
    | _ =>
      match pySplit url "youtu.be/" with
      | _ :: afterBe :: _ => some (pyTake afterBe 11)
      | _ => none

/-- Python's `str.strip("| ")`: remove every leading and trailing `'|'` or
`' '` character (applied to cached URLs in `load_into_maps`, line 236). -/
def stripPipeSpace (s : String) : String :=
  String.mk
    (((s.toList.dropWhile fun c => c = '|' || c = ' ').reverse.dropWhile
      fun c => c = '|' || c = ' ').reverse)

/-- A Python dict keyed and valued by strings, as a lookup function. -/
def StrDict := String → Option String

/-- Dict assignment `d[k] = v`: later assignments win on key collision. -/
def dictInsert (d : StrDict) (k v : String) : StrDict :=
  fun x => if x = k then some v else d x

/-- The pair of empty dicts `url_map = {}`, `id_map = {}` (lines 231-232). -/
def emptyMaps : StrDict × StrDict := (fun _ => none, fun _ => none)

/-- One iteration of the loop body of `cmd_queue.load_into_maps` (lines
234-241): strip the cached URL, assign `url_map[url] = title`, and when the
extracted VideoID is truthy (not `None`, not empty) assign
`id_map[vid] = title`. -/
def mapStep (m : StrDict × StrDict) (item : Track) : StrDict × StrDict :=
  let url := stripPipeSpace item.url
  let um := dictInsert m.1 url item.title
  match extract_video_id url with
  | some vid => if vid = "" then (um, m.2) else (um, dictInsert m.2 vid item.title)
  | none => (um, m.2)

/-- Embedding of `cmd_queue.load_into_maps`: fold the loop body over the
items, threading both dicts. -/
def load_into_maps (items : List Track) (m : StrDict × StrDict) : StrDict × StrDict :=
  match items with
  | [] => m
  | item :: rest => load_into_maps rest (mapStep m item)

/-- The map-building phase of `cmd_queue` (lines 243-253): load Results into
the fresh maps first, then History into the same maps, so History
assignments override Results assignments on key collision. -/
def build_maps (results history : List Track) : StrDict × StrDict :=
  load_into_maps history (load_into_maps results emptyMaps)

/-- Embedding of the per-entry resolution of `cmd_queue` (lines 261-271) for
an entry without an inline title, given the merged maps and the entry's
reported `filename` string:

* `if url in url_map: title = url_map[url]`
* `else:` extract a VideoID; `if vid and vid in id_map: title = id_map[vid]`
* `else: title = url or "Unknown"`. -/
def resolve_title (um im : StrDict) (url : String) : String :=
  match um url with
  | some t => t
  | none =>
    match extract_video_id url with
    | some vid =>
      if vid = "" then (if url = "" then "Unknown" else url)
      else
        match im vid with
        | some t => t
        | none => if url = "" then "Unknown" else url
    | none => if url = "" then "Unknown" else url

/-- A playlist entry as reported by the player (lines 256-262):
`title` may be missing or empty, `filename` may be missing. -/
structure QueueEntry where
  filename : Option String
  title : Option String
  current : Bool

/-- The displayed title of one queue entry (lines 259-271): a truthy inline
title is kept, otherwise the entry's filename (defaulting to `""`) is
resolved through the maps. -/
def entry_title (um im : StrDict) (e : QueueEntry) : String :=
  match e.title with
  | some t => if t = "" then resolve_title um im (e.filename.getD "") else t
  | none => resolve_title um im (e.filename.getD "")

/-! ## Sample tracks used by the concrete witnesses -/

def tA : Track := { title := "A", url := "https://a" }

def tB : Track := { title := "B", url := "https://b" }

def tC : Track := { title := "C", url := "https://c" }

/-! ## Counting helpers -/

/-- Number of entries of a collection carrying a given URL. -/
def urlCount (u : String) (l : List Track) : Nat :=
  l.countP (fun t => t.url = u)

/-- The Favorites invariant: at most one entry per distinct URL. -/
def favInvariant (l : List Track) : Prop :=
  ∀ u, urlCount u l ≤ 1

lemma urlCount_append (u : String) (l₁ l₂ : List Track) :
    urlCount u (l₁ ++ l₂) = urlCount u l₁ + urlCount u l₂ :=
  List.countP_append _ _ _

lemma urlCount_pos_of_any (u : String) (l : List Track)
    (h : l.any (fun t => t.url = u) = true) : 0 < urlCount u l := by
  rcases List.any_eq_true.mp h with ⟨x, hx, hp⟩
  exact List.countP_pos_iff.mpr ⟨x, hx, hp⟩

lemma urlCount_eq_zero_of_any_false (u : String) (l : List Track)
    (h : l.any (fun t => t.url = u) = false) : urlCount u l = 0 := by
  refine List.countP_eq_zero.mpr ?_
  intro x hx
  exact List.any_eq_false.mp h x hx

/-! # Claims -/

/-! ## C3 — History idempotence and first-write-wins -/

lemma save_to_history_mem (t : Track) (h : List Track)
    (hmem : h.any (fun item => item.url = t.url) = true) :
    save_to_history t h = h := by
  simp [save_to_history, hmem]

lemma save_to_history_not_mem (t : Track) (h : List Track)
    (hmem : h.any (fun item => item.url = t.url) = false) :
    save_to_history t h = h ++ [t] := by
  simp [save_to_history, hmem]

/-- **C3**: for every track `t` and every prior History state satisfying the
store's dedup invariant for `t.url`, saving `t` and then saving any track
`t'` with the same URL leaves exactly one History entry for that URL, and
that entry is the one from the first write: `t` itself when the URL was
fresh, the pre-existing entry otherwise — a later save never overwrites the
cached title. -/
theorem history_first_write_wins (t t' : Track) (h : List Track)
    (hurl : t'.url = t.url)
    (hinv : (h.filter fun e => e.url = t.url).length ≤ 1) :
    ((save_to_history t' (save_to_history t h)).filter
        fun e => e.url = t.url).length = 1 ∧
    (save_to_history t' (save_to_history t h)).filter (fun e => e.url = t.url) =
      (if (h.filter fun e => e.url = t.url) = [] then [t]
       else h.filter fun e => e.url = t.url) := by
  cases hany : h.any (fun item => item.url = t.url) with
  | false =>
    have hnil : (h.filter fun e => e.url = t.url) = [] := by
      refine List.filter_eq_nil_iff.mpr ?_
      intro a ha
      simpa using List.any_eq_false.mp hany a ha
    rw [save_to_history_not_mem t h hany]
    have hany' : (h ++ [t]).any (fun item => item.url = t'.url) = true := by
      refine List.any_eq_true.mpr ⟨t, by simp, ?_⟩
      simp [hurl]
    rw [save_to_history_mem t' _ hany']
    simp [hnil, List.filter_append]
  | true =>
    have hne : (h.filter fun e => e.url = t.url) ≠ [] := by
      rcases List.any_eq_true.mp hany with ⟨x, hx, hp⟩
      have : x ∈ h.filter fun e => e.url = t.url := List.mem_filter.mpr ⟨hx, hp⟩
      exact fun hcon => by simp [hcon] at this
    rw [save_to_history_mem t h hany]
    have hany' : h.any (fun item => item.url = t'.url) = true := by
      simpa [hurl] using hany
    rw [save_to_history_mem t' h hany']
    refine ⟨?_, by simp [hne]⟩
    have hpos : 0 < (h.filter fun e => e.url = t.url).length :=
      List.length_pos.mpr hne
    omega

/-- Witness for C3: saving `{title := "T1"}` then `{title := "T2"}` for the
same URL from an empty History keeps exactly the first entry. -/
theorem history_first_write_wins_witness :
    (save_to_history { title := "T2", url := "https://a" }
        (save_to_history { title := "T1", url := "https://a" } [])).filter
      (fun e => e.url = "https://a") = [{ title := "T1", url := "https://a" }] := by
  have h := history_first_write_wins
    { title := "T1", url := "https://a" } { title := "T2", url := "https://a" }
    [] rfl (by decide)
  simpa using h.2

/-! ## C6 — Absent vs generic communication failure -/

/-- **C6** (counterexample): the claim says the value returned on a failed
connection open differs from the value returned on a malformed response; in
the code both `except` clauses of `send_ipc_command` return `None`, so for
the concrete probe request the two values are equal. -/
theorem ipc_absent_eq_parse_failure_value :
    send_ipc_command probeCmd WireResult.connectFail =
      send_ipc_command probeCmd WireResult.parseFail := rfl

/-- **C6** (amended): a failed connection open and a malformed or
unparseable response both collapse to the same `None` sentinel — the caller
cannot distinguish Absent from a generic communication failure by the
returned value (a parse failure differs only in a logged message).  Both are
distinct from every successful outcome, including the empty-line
`no_response` case. -/
theorem ipc_failure_collapse (cmd : IpcCmd) :
    send_ipc_command cmd WireResult.connectFail = none ∧
    send_ipc_command cmd WireResult.ioFail = none ∧
    send_ipc_command cmd WireResult.parseFail = none ∧
    (∀ r : MpvResponse, send_ipc_command cmd (WireResult.parsed r) = some r) ∧
    send_ipc_command cmd WireResult.emptyLine =
      some { error := some "no_response", data := none } :=
  ⟨rfl, rfl, rfl, fun _ => rfl, rfl⟩

/-! ## C7 — connection failure returns Absent, not an exception -/

/-- **C7**: for every request, when the endpoint cannot be opened or the
connection is refused (the `FileNotFoundError` / `ConnectionRefusedError` /
`OSError` clause), both client entry points return the `Absent` outcome
(`None`) as an ordinary value — the embedded functions are total, mirroring
the `try/except` that converts the exception into a return value. -/
theorem connect_failure_returns_absent (cmd : IpcCmd) (prop : String) :
    send_ipc_command cmd WireResult.connectFail = none ∧
    get_ipc_property prop WireResult.connectFail = none :=
  ⟨rfl, rfl⟩

/-! ## C8 — Favorites removal by 1-based index -/

/-- **C8**: removal takes a 1-based ordinal `i`; for `1 ≤ i ≤ length` it
deletes exactly the `i`-th entry, keeping the first `i - 1` entries and
shifting the remaining ones down by one; for every `i` outside `1..length`
it fails (`none`: "Invalid index", nothing saved, list unchanged). -/
theorem remove_favorite_spec (i : Int) (favs : List Track) :
    (1 ≤ i → i ≤ (favs.length : Int) →
      remove_favorite i favs =
        some (favs.take (i.toNat - 1) ++ favs.drop i.toNat)) ∧
    (i < 1 ∨ (favs.length : Int) < i → remove_favorite i favs = none) := by
  constructor
  · intro h1 h2
    have hc : 0 ≤ i - 1 ∧ i - 1 < (favs.length : Int) := by omega
    have htn : (i - 1).toNat = i.toNat - 1 := by omega
    have hsucc : i.toNat - 1 + 1 = i.toNat := by omega
    simp only [remove_favorite, if_pos hc]
    rw [htn, List.eraseIdx_eq_take_drop_succ, hsucc]
  · intro h
    have hc : ¬(0 ≤ i - 1 ∧ i - 1 < (favs.length : Int)) := by omega
    simp only [remove_favorite, if_neg hc]

/-- Witness for C8: the spec's example — from `[A, B, C]`, removing 1-based
index 2 yields `[A, C]`, and removing index 2 again yields `[A]`; index 4 on
the original list fails. -/
theorem remove_favorite_spec_witness :
    remove_favorite 2 [tA, tB, tC] = some [tA, tC] ∧
    remove_favorite 2 [tA, tC] = some [tA] ∧
    remove_favorite 4 [tA, tB, tC] = none := by
  refine ⟨?_, ?_, ?_⟩
  · have h := (remove_favorite_spec 2 [tA, tB, tC]).1 (by decide) (by decide)
    rw [h]; rfl
  · have h := (remove_favorite_spec 2 [tA, tC]).1 (by decide) (by decide)
    rw [h]; rfl
  · exact (remove_favorite_spec 4 [tA, tB, tC]).2 (Or.inr (by simp))

/-! ## C9 — Favorites URL-uniqueness invariant -/

/-- **C9**: assuming the at-most-one-entry-per-URL invariant, it is
preserved by `add_favorite` (duplicate add is a no-op) and by every
successful `remove_favorite`; and adding the same track twice leaves its URL
present exactly once. -/
theorem favorites_unique_url (t : Track) (i : Int) (favs favs' : List Track)
    (hinv : favInvariant favs) :
    favInvariant (add_favorite t favs) ∧
    (remove_favorite i favs = some favs' → favInvariant favs') ∧
    urlCount t.url (add_favorite t (add_favorite t favs)) = 1 := by
  refine ⟨?_, ?_, ?_⟩
  · intro u
    cases hany : favs.any (fun f => f.url = t.url) with
    | true => simpa [add_favorite, hany] using hinv u
    | false =>
      rw [add_favorite, if_neg (by simp [hany]), urlCount_append]
      by_cases hu : t.url = u
      · have h0 : urlCount u favs = 0 :=
          urlCount_eq_zero_of_any_false u favs (by simpa [hu] using hany)
        have h1 : urlCount u [t] = 1 := by simp [urlCount, hu]
        omega
      · have h1 : urlCount u [t] = 0 := by simp [urlCount, hu]
        have := hinv u
        omega
  · intro hrem u
    by_cases hc : 0 ≤ i - 1 ∧ i - 1 < (favs.length : Int)
    · simp only [remove_favorite, if_pos hc, Option.some.injEq] at hrem
      subst hrem
      calc urlCount u (favs.eraseIdx (i - 1).toNat)
          ≤ urlCount u favs :=
            List.Sublist.countP_le _ (List.eraseIdx_sublist favs _)
        _ ≤ 1 := hinv u
    · simp only [remove_favorite, if_neg hc] at hrem
      exact absurd hrem (by simp)
  · cases hany : favs.any (fun f => f.url = t.url) with
    | true =>
      have heq : add_favorite t favs = favs := by simp [add_favorite, hany]
      rw [heq, heq]
      have hpos := urlCount_pos_of_any t.url favs hany
      have := hinv t.url
      omega
    | false =>
      have heq : add_favorite t favs = favs ++ [t] := by
        simp [add_favorite, hany]
      rw [heq]
      have hany2 : (favs ++ [t]).any (fun f => f.url = t.url) = true := by
        refine List.any_eq_true.mpr ⟨t, by simp, by simp⟩
      have heq2 : add_favorite t (favs ++ [t]) = favs ++ [t] := by
        simp [add_favorite, hany2]
      rw [heq2, urlCount_append,
        urlCount_eq_zero_of_any_false t.url favs hany]
      simp [urlCount]

/-- Witness for C9: from an empty Favorites list, adding the same track
twice yields its URL exactly once; removing the only entry keeps the
invariant. -/
theorem favorites_unique_url_witness :
    favInvariant (add_favorite tA []) ∧
    urlCount tA.url (add_favorite tA (add_favorite tA [])) = 1 := by
  have h := favorites_unique_url tA 1 [] [] (by intro u; simp [urlCount])
  exact ⟨h.1, h.2.2⟩

/-! ## C1 — play while Attached: exact command sequence, queue order -/

lemma runQueue_append_cmds (q : List String) (ts : List Track) :
    runQueue q (ts.map fun t => loadfileCmd t.url "append") = q ++ ts.map Track.url := by
  induction ts generalizing q with
  | nil => simp [runQueue]
  | cons t ts ih =>
    simp only [List.map_cons, runQueue, List.foldl_cons]
    rw [show applyCmd q (loadfileCmd t.url "append") = q ++ [t.url] from rfl]
    simpa [runQueue] using ih (q ++ [t.url])

/-- **C1**: for every non-empty batch issued while the probe response has
success status (Attached), `play_tracks` sends exactly
`loadfile(first.url, "replace")`, then `set_property("pause", false)`, then
`loadfile(t.url, "append")` for each remaining track in input order, spawns
nothing, and — under the player's replace/append playlist semantics — leaves
the queue equal to the batch's URLs in input order, whatever the queue held
before. -/
theorem play_attached_ordering (mpvExe ipcPipe : String) (first : Track)
    (rest : List Track) (probe : Option MpvResponse) (st : Store)
    (q0 : List String) (hatt : isAttached probe = true) :
    (play_tracks mpvExe ipcPipe (first :: rest) probe st).sent =
      loadfileCmd first.url "replace" :: setPauseCmd false ::
        rest.map (fun t => loadfileCmd t.url "append") ∧
    (play_tracks mpvExe ipcPipe (first :: rest) probe st).spawns = [] ∧
    runQueue q0 (play_tracks mpvExe ipcPipe (first :: rest) probe st).sent =
      (first :: rest).map Track.url := by
  have hsent : (play_tracks mpvExe ipcPipe (first :: rest) probe st).sent =
      loadfileCmd first.url "replace" :: setPauseCmd false ::
        rest.map (fun t => loadfileCmd t.url "append") := by
    simp [play_tracks, hatt]
  refine ⟨hsent, by simp [play_tracks, hatt], ?_⟩
  rw [hsent]
  simp only [runQueue, List.foldl_cons]
  rw [show applyCmd q0 (loadfileCmd first.url "replace") = [first.url] from rfl,
    show applyCmd [first.url] (setPauseCmd false) = [first.url] from rfl]
  simpa using runQueue_append_cmds [first.url] rest

/-- Witness for C1: playing `[A, B]` against a success-status probe sends
replace-A, unpause, append-B, spawns nothing, and leaves the queue
`[A.url, B.url]` even though it previously held another URL. -/
theorem play_attached_ordering_witness :
    (play_tracks "mpv" "/tmp/pipe" [tA, tB]
        (some { error := some "success", data := none })
        { results := [], history := [], favorites := [] }).sent =
      [loadfileCmd "https://a" "replace", setPauseCmd false,
       loadfileCmd "https://b" "append"] ∧
    (play_tracks "mpv" "/tmp/pipe" [tA, tB]
        (some { error := some "success", data := none })
        { results := [], history := [], favorites := [] }).spawns = [] ∧
    runQueue ["https://old"]
        (play_tracks "mpv" "/tmp/pipe" [tA, tB]
          (some { error := some "success", data := none })
          { results := [], history := [], favorites := [] }).sent =
      ["https://a", "https://b"] := by
  have h := play_attached_ordering "mpv" "/tmp/pipe" tA [tB]
    (some { error := some "success", data := none })
    { results := [], history := [], favorites := [] } ["https://old"] (by decide)
  exact ⟨h.1, h.2.1, h.2.2⟩

/-! ## C2 — play while Absent: one detached spawn, URLs in order -/

/-- **C2**: for every non-empty batch issued while the probe does not report
success (Absent), `play_tracks` performs exactly one spawn invocation —
detached, stdio discarded — whose argument vector is the player binary, the
fixed flags (`--no-video`, `--idle`, `--cache=yes`, `--prefetch-playlist=yes`,
`--demuxer-max-bytes=128M`, `--demuxer-max-back-bytes=128M`), the channel
endpoint, and then every track URL in input order as positional media
arguments; no channel command is sent after the probe (in particular no
readiness re-probe or verification of the spawned process before
returning). -/
theorem play_absent_spawn (mpvExe ipcPipe : String) (first : Track)
    (rest : List Track) (probe : Option MpvResponse) (st : Store)
    (habs : isAttached probe = false) :
    (play_tracks mpvExe ipcPipe (first :: rest) probe st).spawns =
      [{ args := [mpvExe, "--no-video", "--idle", "--cache=yes",
            "--prefetch-playlist=yes", "--demuxer-max-bytes=128M",
            "--demuxer-max-back-bytes=128M",
            "--input-ipc-server=" ++ ipcPipe] ++ (first :: rest).map Track.url,
          detached := true,
          stdioDiscarded := true }] ∧
    (play_tracks mpvExe ipcPipe (first :: rest) probe st).sent = [] ∧
    (play_tracks mpvExe ipcPipe (first :: rest) probe st).probes = [probeCmd] := by
  refine ⟨?_, by simp [play_tracks, habs], by simp [play_tracks, habs]⟩
  simp [play_tracks, habs, spawnArgs]

/-- Witness for C2: playing `[A, B, C]` with an unreachable channel
(probe returned `None`) spawns exactly one detached player whose media
arguments are `[A.url, B.url, C.url]` in order, and sends nothing. -/
theorem play_absent_spawn_witness :
    (play_tracks "mpv" "/tmp/pipe" [tA, tB, tC] none
        { results := [], history := [], favorites := [] }).spawns =
      [{ args := ["mpv", "--no-video", "--idle", "--cache=yes",
            "--prefetch-playlist=yes", "--demuxer-max-bytes=128M",
            "--demuxer-max-back-bytes=128M", "--input-ipc-server=/tmp/pipe",
            "https://a", "https://b", "https://c"],
          detached := true,
          stdioDiscarded := true }] ∧
    (play_tracks "mpv" "/tmp/pipe" [tA, tB, tC] none
        { results := [], history := [], favorites := [] }).sent = [] := by
  have h := play_absent_spawn "mpv" "/tmp/pipe" tA [tB, tC] none
    { results := [], history := [], favorites := [] } (by decide)
  exact ⟨by rw [h.1]; rfl, h.2.1⟩

/-! ## C10 — frame effects of `play_tracks` -/

/-- **C10**: an empty batch does nothing at all — no probe, no channel
command, no spawn, no store change (the `if not tracks: return` guard); a
non-empty batch saves only the first track to History (via the URL-dedup
rule of `save_to_history`) and leaves Results and Favorites untouched, in
both the Attached and the Absent branch. -/
theorem play_frame_effects (mpvExe ipcPipe : String) (tracks : List Track)
    (probe : Option MpvResponse) (st : Store) :
    play_tracks mpvExe ipcPipe [] probe st =
      { store := st, probes := [], sent := [], spawns := [] } ∧
    (∀ first rest, tracks = first :: rest →
      (play_tracks mpvExe ipcPipe tracks probe st).store.results = st.results ∧
      (play_tracks mpvExe ipcPipe tracks probe st).store.favorites = st.favorites ∧
      (play_tracks mpvExe ipcPipe tracks probe st).store.history =
        save_to_history first st.history) := by
  refine ⟨rfl, ?_⟩
  intro first rest htr
  subst htr
  cases hatt : isAttached probe with
  | true => simp [play_tracks, hatt]
  | false => simp [play_tracks, hatt]

/-- Witness for C10: playing `[A, B]` from an empty store records only `A`
in History and leaves Results and Favorites empty; the empty batch is a
complete no-op. -/
theorem play_frame_effects_witness :
    play_tracks "mpv" "/tmp/pipe" [] none
        { results := [tC], history := [tC], favorites := [tC] } =
      { store := { results := [tC], history := [tC], favorites := [tC] },
        probes := [], sent := [], spawns := [] } ∧
    (play_tracks "mpv" "/tmp/pipe" [tA, tB] none
        { results := [], history := [], favorites := [] }).store.history =
      save_to_history tA [] := by
  refine ⟨(play_frame_effects "mpv" "/tmp/pipe" [] none
    { results := [tC], history := [tC], favorites := [tC] }).1, ?_⟩
  exact ((play_frame_effects "mpv" "/tmp/pipe" [tA, tB] none
    { results := [], history := [], favorites := [] }).2 tA [tB] rfl).2.2

/-! ## C5 — merge order: History shadows Results -/

lemma mapStep_fst (m : StrDict × StrDict) (x : Track) :
    (mapStep m x).1 = dictInsert m.1 (stripPipeSpace x.url) x.title := by
  simp only [mapStep]
  cases extract_video_id (stripPipeSpace x.url) with
  | none => rfl
  | some vid => by_cases h : vid = "" <;> simp [h]

lemma mapStep_snd (m : StrDict × StrDict) (x : Track) (v : String) :
    (mapStep m x).2 v = ((mapStep emptyMaps x).2 v).or (m.2 v) := by
  simp only [mapStep]
  cases extract_video_id (stripPipeSpace x.url) with
  | none => simp [emptyMaps]
  | some vid =>
    by_cases h : vid = ""
    · simp [h, emptyMaps]
    · simp only [h, if_neg h, emptyMaps]
      by_cases hv : v = vid <;> simp [dictInsert, hv, emptyMaps]

lemma mapStep_fst_or (m : StrDict × StrDict) (x : Track) (u : String) :
    (mapStep m x).1 u = ((mapStep emptyMaps x).1 u).or (m.1 u) := by
  rw [mapStep_fst, mapStep_fst]
  simp only [dictInsert]
  by_cases hu : u = stripPipeSpace x.url <;> simp [hu, emptyMaps]

/-- Folding items into any starting maps agrees with folding them into empty
maps wherever the items define a key, and falls back to the starting maps
elsewhere (Python dict assignment: later assignments win). -/
lemma load_into_maps_or (items : List Track) (m : StrDict × StrDict)
    (u v : String) :
    (load_into_maps items m).1 u =
      ((load_into_maps items emptyMaps).1 u).or (m.1 u) ∧
    (load_into_maps items m).2 v =
      ((load_into_maps items emptyMaps).2 v).or (m.2 v) := by
  induction items generalizing m with
  | nil => simp [load_into_maps, emptyMaps]
  | cons x rest ih =>
    simp only [load_into_maps]
    constructor
    · rw [(ih (mapStep m x)).1, (ih (mapStep emptyMaps x)).1,
        mapStep_fst_or m x u, Option.or_assoc]
    · rw [(ih (mapStep m x)).2, (ih (mapStep emptyMaps x)).2,
        mapStep_snd m x v, Option.or_assoc]

/-- **C5**: the lookup maps are built Results-first-then-History with later
assignments winning, so on every URL key (and every VideoID key) that
History defines, the merged map agrees with the map built from History
alone — the History entry's title shadows any Results entry for the same
key. -/
theorem merge_history_shadows_results (results history : List Track)
    (u v : String) :
    (((load_into_maps history emptyMaps).1 u).isSome →
      (build_maps results history).1 u =
        (load_into_maps history emptyMaps).1 u) ∧
    (((load_into_maps history emptyMaps).2 v).isSome →
      (build_maps results history).2 v =
        (load_into_maps history emptyMaps).2 v) := by
  constructor
  · intro hs
    rw [build_maps,
      (load_into_maps_or history (load_into_maps results emptyMaps) u v).1]
    cases h : (load_into_maps history emptyMaps).1 u with
    | none => rw [h] at hs; simp at hs
    | some t => simp [Option.or]
  · intro hs
    rw [build_maps,
      (load_into_maps_or history (load_into_maps results emptyMaps) u v).2]
    cases h : (load_into_maps history emptyMaps).2 v with
    | none => rw [h] at hs; simp at hs
    | some t => simp [Option.or]

/-- Witness for C5: with Results `[{R, u}]` and History `[{H, u}]`, the
merged URL map resolves `u` to the History title `H`. -/
theorem merge_history_shadows_results_witness :
    (build_maps [{ title := "R", url := "u" }]
        [{ title := "H", url := "u" }]).1 "u" = some "H" := by
  have h := (merge_history_shadows_results [{ title := "R", url := "u" }]
    [{ title := "H", url := "u" }] "u" "u").1 (by decide)
  rw [h]
  decide

/-! ## C4 — Title Resolver priority order -/

/-- **C4**: for a QueueEntry without an inline title, the displayed title is
the first applicable of: (1) the merged URL map at the entry's exact
URL/filename; (2) the merged VideoID map at the VideoID extracted from the
URL, when one is present (non-empty); (3) the raw URL/filename; (4) the
literal `"Unknown"` when the URL/filename is empty. -/
theorem title_resolver_priority (results history : List Track) (url : String) :
    (∀ (fn : Option String) (c : Bool),
      entry_title (build_maps results history).1 (build_maps results history).2
          { filename := fn, title := none, current := c } =
        resolve_title (build_maps results history).1
          (build_maps results history).2 (fn.getD "")) ∧
    (∀ t, (build_maps results history).1 url = some t →
      resolve_title (build_maps results history).1
        (build_maps results history).2 url = t) ∧
    ((build_maps results history).1 url = none →
      ∀ v t, extract_video_id url = some v → v ≠ "" →
        (build_maps results history).2 v = some t →
        resolve_title (build_maps results history).1
          (build_maps results history).2 url = t) ∧
    ((build_maps results history).1 url = none →
      (∀ v, extract_video_id url = some v →
        v = "" ∨ (build_maps results history).2 v = none) →
      url ≠ "" →
      resolve_title (build_maps results history).1
        (build_maps results history).2 url = url) ∧
    ((build_maps results history).1 url = none → url = "" →
      resolve_title (build_maps results history).1
        (build_maps results history).2 url = "Unknown") := by
  refine ⟨?_, ?_, ?_, ?_, ?_⟩
  · intro fn c; rfl
  · intro t h
    simp [resolve_title, h]
  · intro h v t hv hne ht
    simp [resolve_title, h, hv, hne, ht]
  · intro h hall hurl
    cases hv : extract_video_id url with
    | none => simp [resolve_title, h, hv, hurl]
    | some v =>
      rcases hall v hv with h0 | h0
      · simp [resolve_title, h, hv, h0, hurl]
      · by_cases he : v = ""
        · simp [resolve_title, h, hv, he, hurl]
        · simp [resolve_title, h, hv, he, h0, hurl]
  · intro h hurl
    subst hurl
    simp [resolve_title, h, extract_video_id]

/-- Witness for C4: the spec's VideoID-fallback example — History caches the
URL with a `&list=foo` suffix, the queue reports the URL without it; exact
match fails and the 11-character VideoID match returns `"Song2"`. -/
theorem title_resolver_priority_witness :
    resolve_title
        (build_maps []
          [{ title := "Song2", url := "https://x/watch?v=ZZZZZZZZZZZ&list=foo" }]).1
        (build_maps []
          [{ title := "Song2", url := "https://x/watch?v=ZZZZZZZZZZZ&list=foo" }]).2
        "https://x/watch?v=ZZZZZZZZZZZ" = "Song2" :=
  (title_resolver_priority []
      [{ title := "Song2", url := "https://x/watch?v=ZZZZZZZZZZZ&list=foo" }]
      "https://x/watch?v=ZZZZZZZZZZZ").2.2.1 (by decide)
    "ZZZZZZZZZZZ" "Song2" (by decide) (by decide) (by decide)

end Yit
